import Mathlib

/-!
Shallow embedding of the askdoc service (github.com/liliang-cn/askdoc) in Lean 4,
covering the middleware, ingestion, chat and widget-config code paths that the
verified claims talk about.

Conventions of the embedding:
* Go strings that are only compared for equality or concatenated are modelled as
  Lean `String`; header values and file names, on which the code performs
  prefix/suffix surgery, are modelled as `List Char` (one entry per character).
* A Go runtime panic is modelled by the `GoResult.panicked` constructor.
* Fallible calls into the external orchestrator library (rago) are modelled as
  explicit oracle parameters describing the outcome of the external call; the
  code of this repository is translated faithfully around those oracles.
* Database rows live in explicit in-memory states (`ChatDB`, `IngestState`);
  a repository write that the SQL layer would perform is an append/update on
  that state.  Timestamps are not modelled (no claim mentions them).
-/

set_option linter.unusedVariables false

namespace Askdoc

/-- Result of running a piece of Go code that may panic at runtime. -/
inductive GoResult (α : Type) where
  | ok (value : α)
  | panicked
deriving DecidableEq, Repr

/-- Citation source returned alongside a generated answer
(internal/domain/chat.go, struct `Source`). -/
structure Source where
  documentID : String
  filename : String
  content : String
  score : Float
deriving Repr

/-- Chat message row (internal/domain/chat.go, struct `Message`); the `id` and
`created_at` columns are generated by the repository and not inspected by any
claim, so they are not modelled. -/
structure Message where
  sessionID : String
  role : String
  content : String
  sources : List Source
deriving Repr

/-- Session row (internal/domain/chat.go, struct `Session`). -/
structure Session where
  id : String
  siteID : String
deriving Repr

/-- Widget display configuration (internal/domain/site.go, struct `WidgetConfig`). -/
structure WidgetConfig where
  theme : String
  primaryColor : String
  position : String
  welcomeMessage : String
  placeholder : String
  showSources : Bool
deriving DecidableEq, Repr

/-- Site row (internal/domain/site.go, struct `Site`). -/
structure Site where
  id : String
  name : String
  domain : String
  collectionIDs : List String
  widgetConfig : WidgetConfig
  rateLimit : Int
deriving DecidableEq, Repr

/-- Chat request body (internal/domain/chat.go, struct `ChatRequest`). -/
structure ChatRequest where
  sessionID : String
  message : String
deriving DecidableEq, Repr

/-- Chat response body (internal/domain/chat.go, struct `ChatResponse`). -/
structure ChatResponse where
  sessionID : String
  answer : String
  sources : List Source
deriving Repr

/-- One streamed chunk (internal/domain/chat.go, struct `StreamChunk`): the Go
struct carries a `Type` tag string plus the payload fields used by that tag; we
model it as a sum over the five tag values the code emits. -/
inductive StreamChunk where
  | thinking (content : String)
  | content (content : String)
  | sources (sources : List Source)
  | done
  | error (content : String)
deriving Repr

/-- Domain-level errors (internal/domain/errors.go). -/
inductive DomainErr where
  | notFound
  | invalidRequest
deriving DecidableEq, Repr

/-! ## Auth middleware (internal/api/middleware/auth.go, `middleware.Auth`) -/

/-- What the auth middleware does with a request. -/
inductive AuthOutcome where
  | proceed
  | unauthorized
deriving DecidableEq, Repr

/-- The characters of the literal `"Bearer "` used by the middleware. -/
def bearerTag : List Char := "Bearer ".toList

/-- `middleware.Auth`: given the configured API key and the request's
`X-API-Key` and `Authorization` header values (empty list = header absent,
as Go's `GetHeader` returns `""` for a missing header), decide whether the
request proceeds or is answered 401 and aborted.  `authHdr.take 7 = bearerTag`
is Go's `strings.HasPrefix(auth, "Bearer ")` and `authHdr.drop 7` is
`strings.TrimPrefix(auth, "Bearer ")` under that guard. -/
def Auth (apiKey xApiKeyHdr authHdr : List Char) : AuthOutcome :=
  if apiKey = [] then
    AuthOutcome.proceed
  else
    let key := xApiKeyHdr
    let key := if key = [] then
        (if authHdr.take 7 = bearerTag then authHdr.drop 7 else [])
      else key
    if key ≠ apiKey then AuthOutcome.unauthorized else AuthOutcome.proceed

/-! ## Ingestion workflow (internal/service/ingest_service.go) -/

/-- Helper for `filepathExt`: walks the reversed path, accumulating the suffix
seen so far; stops at a path separator (no extension) or at a dot (extension
found, dot included), mirroring the loop of Go's `filepath.Ext`. -/
def extFromRev : List Char → List Char → List Char
  | [], _ => []
  | c :: rest, acc =>
      if c = '/' then []
      else if c = '.' then c :: acc
      else extFromRev rest (c :: acc)

/-- Go's `filepath.Ext`: the suffix of the path beginning at the final dot in
the final slash-separated element; empty if there is no dot. -/
def filepathExt (path : List Char) : List Char :=
  extFromRev path.reverse []

/-- FileType constants (ingest_service.go). -/
def FileTypePDF : List Char := "pdf".toList

/-- FileType constant for markdown. -/
def FileTypeMD : List Char := "md".toList

/-- FileType constant for plain text. -/
def FileTypeTXT : List Char := "txt".toList

/-- FileType constant for HTML. -/
def FileTypeHTML : List Char := "html".toList

/-- FileType constant for AsciiDoc. -/
def FileTypeADOC : List Char := "adoc".toList

/-- `DetectFileType` (ingest_service.go): lowercases `filepath.Ext(filename)`
and switches on it; the default branch executes `ext[1:]`, which in Go panics
with a slice-bounds error when `ext` is the empty string (filename without a
dot), hence the `GoResult.panicked` case. -/
def DetectFileType (filename : List Char) : GoResult (List Char) :=
  let ext := (filepathExt filename).map Char.toLower
  if ext = ".pdf".toList then GoResult.ok FileTypePDF
  else if ext = ".md".toList ∨ ext = ".markdown".toList then GoResult.ok FileTypeMD
  else if ext = ".txt".toList then GoResult.ok FileTypeTXT
  else if ext = ".html".toList ∨ ext = ".htm".toList then GoResult.ok FileTypeHTML
  else if ext = ".adoc".toList ∨ ext = ".asciidoc".toList then GoResult.ok FileTypeADOC
  else match ext with
    | [] => GoResult.panicked
    | _ :: rest => GoResult.ok rest

/-- `IsSupported` (ingest_service.go): membership of the detected file type in
the supported-type map. -/
def IsSupported (fileType : List Char) : Bool :=
  fileType = FileTypePDF ∨ fileType = FileTypeMD ∨ fileType = FileTypeTXT ∨
    fileType = FileTypeHTML ∨ fileType = FileTypeADOC

/-- Errors surfaced by `UploadDocument`. -/
inductive UploadErr where
  | collectionNotFound
  | unsupportedFileType (fileType : List Char)
deriving DecidableEq, Repr

/-- The fields of the returned Document row that claims inspect. -/
structure UploadedDoc where
  id : List Char
  fileType : List Char
  status : String
deriving DecidableEq, Repr

/-- The observable side-effect state of one collection's ingestion workflow:
its `document_count` column (`collections` table) and the list of paths written
under the document storage directory. -/
structure IngestState where
  docCount : Int
  disk : List (List Char)
deriving DecidableEq, Repr

/-- A freshly created collection row: `CollectionRepository.Create` inserts the
Go zero value `0` for `document_count` (collection_repo.go), and no file of the
collection exists on disk yet. -/
def collectionCreate : IngestState := { docCount := 0, disk := [] }

/-- `IngestService.UploadDocument` (ingest_service.go): checks the collection
exists, detects and validates the file type, then creates the per-collection
storage directory, saves the file as `<docID><ext>`, and increments
`document_count`.  `collectionExists` is the oracle for `collectionRepo.Get`;
file-system and SQL errors are not modelled (the in-memory state never fails).
The detached background ingestion task touches only the external store, never
this state, so it is not modelled here. -/
def UploadDocument (st : IngestState) (collectionExists : Bool)
    (collectionID filename docID : List Char) :
    GoResult (IngestState × Except UploadErr UploadedDoc) :=
  if !collectionExists then
    GoResult.ok (st, Except.error UploadErr.collectionNotFound)
  else
    match DetectFileType filename with
    | GoResult.panicked => GoResult.panicked
    | GoResult.ok fileType =>
      if !IsSupported fileType then
        GoResult.ok (st, Except.error (UploadErr.unsupportedFileType fileType))
      else
        let storageDir := collectionID
        let storagePath := collectionID ++ '/' :: (docID ++ filepathExt filename)
        let st := { st with disk := st.disk ++ [storageDir, storagePath] }
        let st := { st with docCount := st.docCount + 1 }
        GoResult.ok (st, Except.ok { id := docID, fileType := fileType, status := "pending" })

/-- Best-effort file removal loop of `IngestService.DeleteDocument`: tries the
base path with each of the four hard-coded extensions and removes the first
one that exists, then stops. -/
def tryRemoveExts (disk : List (List Char)) (base : List Char) :
    List (List Char) → List (List Char)
  | [] => disk
  | ext :: rest =>
      if (base ++ ext) ∈ disk then disk.erase (base ++ ext)
      else tryRemoveExts disk base rest

/-- `IngestService.DeleteDocument` (ingest_service.go): deletes the row from
the external store (oracle `externalDeleteOk`; on failure returns early),
best-effort removes `<collectionID>/<docID>` with one of the known extensions,
then decrements the collection's `document_count`. -/
def IngestDeleteDocument (st : IngestState) (collectionID docID : List Char)
    (externalDeleteOk : Bool) : IngestState × Except DomainErr Unit :=
  if !externalDeleteOk then
    (st, Except.error DomainErr.notFound)
  else
    let storagePath := collectionID ++ '/' :: docID
    let st := { st with
      disk := tryRemoveExts st.disk storagePath
        [".txt".toList, ".pdf".toList, ".md".toList, ".html".toList] }
    ({ st with docCount := st.docCount - 1 }, Except.ok ())

/-- `AdminService.DeleteDocument` (admin_service.go): forwards to
`orchestrator.DeleteDocument`, which touches only the external store; the
collection's `document_count` and the on-disk file are left untouched. -/
def AdminDeleteDocument (st : IngestState) (docID : List Char)
    (externalDeleteOk : Bool) : IngestState × Except DomainErr Unit :=
  if !externalDeleteOk then (st, Except.error DomainErr.notFound)
  else (st, Except.ok ())

/-! ## Document listing and pagination (admin_service.go `ListDocuments`,
ingest_service.go `ListDocumentsByCollection`) -/

/-- A document row as stored by the external store (rago), reduced to the
fields the listing code reads: the `collection_id` tag extracted from its
metadata map (`none` when the key is absent or not a string). -/
structure RagoDoc where
  id : String
  collectionID : Option String
deriving DecidableEq, Repr

/-- `OrchestratorService.ListDocumentsByCollection` (orchestrator.go): fetches
the full document list from the external store and keeps the ones whose
metadata `collection_id` equals the requested collection. -/
def ListDocumentsByCollection (allDocs : List RagoDoc) (collectionID : String) :
    List RagoDoc :=
  allDocs.filter (fun d => d.collectionID = some collectionID)

/-- The `DocumentListResponse` of a listing call (internal/domain/document.go). -/
structure DocumentListResponse where
  documents : List RagoDoc
  total : Int
  page : Int
  pageSize : Int
deriving DecidableEq, Repr

/-- The in-memory pagination of `AdminService.ListDocuments` (admin_service.go,
lines 103-119): `start := (page-1)*pageSize` clamped at 0, `end := start +
pageSize` clamped at `total`, then the Go slice `docs[start:end]` when
`start < total` and the empty list otherwise.  A Go slice with `end < start`
panics, hence the `GoResult.panicked` case. -/
def paginate (docs : List RagoDoc) (page pageSize : Int) :
    GoResult (List RagoDoc × Int) :=
  let total : Int := docs.length
  let start := (page - 1) * pageSize
  let start := if start < 0 then 0 else start
  let stop := start + pageSize
  let stop := if stop > total then total else stop
  if start < total then
    if stop < start then GoResult.panicked
    else GoResult.ok ((docs.drop start.toNat).take (stop - start).toNat, total)
  else GoResult.ok ([], total)

/-- `AdminService.ListDocuments`: fetch the full filtered list from the
external store (oracle `allDocs` is the store's contents), slice it in memory,
and report the full filtered length as `Total`. -/
def ListDocuments (allDocs : List RagoDoc) (collectionID : String)
    (page pageSize : Int) : GoResult DocumentListResponse :=
  match paginate (ListDocumentsByCollection allDocs collectionID) page pageSize with
  | GoResult.panicked => GoResult.panicked
  | GoResult.ok (paged, total) =>
      GoResult.ok { documents := paged, total := total, page := page, pageSize := pageSize }

/-! ## Chat relay (internal/service/chat_service.go) -/

/-- The metadata-store rows the chat relay writes: `sessions` and `messages`,
in insertion order. -/
structure ChatDB where
  sessions : List Session
  messages : List Message
deriving Repr

/-- Outcome oracle for the call `orchestrator.Chat` in `ChatService.Chat`:
the orchestrator may be absent (`s.orchestrator == nil`), succeed, or fail. -/
inductive OrchOutcome where
  | notConfigured
  | success (answer : String) (sources : List Source)
  | failure (errText : String)
deriving Repr

/-- `ChatService.Chat` (chat_service.go): verify the site exists (oracle
`site` is the repository's answer for `siteID`), get or create the session,
persist the user message, call the orchestrator (substituting a synthetic
answer on failure or when not configured), persist the assistant message, and
bump the session (timestamp bump not modelled).  `newSessionID` is the UUID the
session repository would generate. -/
def Chat (db : ChatDB) (siteID : String) (site : Option Site) (req : ChatRequest)
    (newSessionID : String) (orch : OrchOutcome) :
    ChatDB × Except DomainErr ChatResponse :=
  match site with
  | none => (db, Except.error DomainErr.notFound)
  | some _ =>
    let (db, sessionID) :=
      if req.sessionID = "" then
        ({ db with sessions := db.sessions ++ [{ id := newSessionID, siteID := siteID }] },
         newSessionID)
      else (db, req.sessionID)
    let db := { db with messages := db.messages ++
      [({ sessionID := sessionID, role := "user", content := req.message,
          sources := [] } : Message)] }
    let resp : ChatResponse :=
      match orch with
      | OrchOutcome.notConfigured =>
          { sessionID := sessionID,
            answer := "Orchestrator Agent not configured. Your question: " ++ req.message,
            sources := [] }
      | OrchOutcome.success answer sources =>
          { sessionID := sessionID, answer := answer, sources := sources }
      | OrchOutcome.failure errText =>
          { sessionID := sessionID, answer := "Error from Agent: " ++ errText,
            sources := [] }
    let db := { db with messages := db.messages ++
      [({ sessionID := sessionID, role := "assistant", content := resp.answer,
          sources := resp.sources } : Message)] }
    (db, Except.ok resp)

/-- `ChatService.ChatStream` (chat_service.go): verify the site exists, then
either hand back the orchestrator's stream (`orchChunks` is the chunk sequence
the orchestrator's channel will deliver) or, with no orchestrator configured,
the three-chunk fallback stream.  No session row and no message row is
written on this path. -/
def ChatStream (db : ChatDB) (siteID : String) (site : Option Site)
    (req : ChatRequest) (orchConfigured : Bool) (orchChunks : List StreamChunk) :
    ChatDB × Except DomainErr (List StreamChunk) :=
  match site with
  | none => (db, Except.error DomainErr.notFound)
  | some _ =>
    if orchConfigured then (db, Except.ok orchChunks)
    else
      (db, Except.ok
        [StreamChunk.thinking "Processing...",
         StreamChunk.content "Orchestrator Agent not configured.",
         StreamChunk.done])

/-! ## Streaming relays of the orchestrator (orchestrator.go `ChatStream`,
both the simple-RAG variant and the agent variant) -/

/-- One hit returned by the vector search in the simple-RAG streaming variant,
reduced to the fields the relay copies into a `Source`. -/
structure RagHit where
  documentID : String
  content : String
  score : Float
  filenameMeta : Option String
deriving Repr

/-- Source list built from the search hits by the simple-RAG streaming variant
(filename defaults to the empty string when the metadata key is absent). -/
def hitsToSources (hits : List RagHit) : List Source :=
  hits.map (fun h =>
    { documentID := h.documentID, content := h.content, score := h.score,
      filename := h.filenameMeta.getD "" })

/-- Simple-RAG `OrchestratorService.ChatStream` (orchestrator.go): the exact
chunk sequence the producer goroutine sends on the channel, as a function of
the outcomes of the three external calls: `embedRes` (`embedder.Embed`),
`searchRes` (`sqliteStore.Search`), and the streamed generation
(`genPieces` = the content pieces delivered to the callback before
`generator.Stream` returned, `genErr` = its error, if any). -/
def ChatStreamSimple (embedRes : Except String Unit)
    (searchRes : Except String (List RagHit))
    (genPieces : List String) (genErr : Option String) : List StreamChunk :=
  StreamChunk.thinking "Searching..." ::
  match embedRes with
  | Except.error e => [StreamChunk.error e]
  | Except.ok _ =>
    match searchRes with
    | Except.error e => [StreamChunk.error e]
    | Except.ok hits =>
      if hits.isEmpty then
        [StreamChunk.content "No relevant documents found.", StreamChunk.done]
      else
        StreamChunk.thinking "Generating..." ::
        genPieces.map StreamChunk.content ++
        match genErr with
        | some e => [StreamChunk.error e]
        | none => [StreamChunk.sources (hitsToSources hits), StreamChunk.done]

/-- One event received from `agentService.RunStream` in the agent variant of
`OrchestratorService.ChatStream`; `other` stands for any event type the
relay's switch does not match (it is skipped). -/
inductive AgentEvent where
  | thinking (content : String)
  | text (content : String)
  | toolCall (toolName : String)
  | toolResult (toolName : String)
  | done
  | error (content : String)
  | other
deriving DecidableEq, Repr

/-- Agent variant of `OrchestratorService.ChatStream`: relays the upstream
event sequence chunk by chunk, stops at the first `done` or `error` event,
and synthesizes a trailing `done` chunk when the upstream event stream is
exhausted without either. -/
def ChatStreamAgent : List AgentEvent → List StreamChunk
  | [] => [StreamChunk.done]
  | event :: rest =>
    match event with
    | AgentEvent.thinking c => StreamChunk.thinking c :: ChatStreamAgent rest
    | AgentEvent.text c => StreamChunk.content c :: ChatStreamAgent rest
    | AgentEvent.toolCall n =>
        StreamChunk.thinking ("Using tool: " ++ n) :: ChatStreamAgent rest
    | AgentEvent.toolResult n =>
        StreamChunk.thinking ("Tool " ++ n ++ " completed") :: ChatStreamAgent rest
    | AgentEvent.done => [StreamChunk.done]
    | AgentEvent.error c => [StreamChunk.error c]
    | AgentEvent.other => ChatStreamAgent rest

/-- True exactly on `done` chunks. -/
def isDoneChunk : StreamChunk → Bool
  | StreamChunk.done => true
  | _ => false

/-- True on the two terminal chunk types, `done` and `error`. -/
def isTerminalChunk : StreamChunk → Bool
  | StreamChunk.done => true
  | StreamChunk.error _ => true
  | _ => false

/-- True exactly on upstream `error` events. -/
def isErrorEvent : AgentEvent → Bool
  | AgentEvent.error _ => true
  | _ => false

/-! ## Widget config (internal/service/widget_service.go,
internal/api/widget/handler.go) -/

/-- The widget-config response body (widget_service.go,
`WidgetConfigResponse`). -/
structure WidgetConfigResponse where
  siteID : String
  name : String
  config : WidgetConfig
  baseURL : String
deriving DecidableEq, Repr

/-- `WidgetService.GetWidgetConfig` (widget_service.go): looks up the site
(oracle `site`), then derives `base_url` from the request host when that is
non-empty (defaulting the scheme to `http`), falling back to the statically
configured base URL only for an empty request host. -/
def GetWidgetConfig (cfgBaseURL : String) (site : Option Site)
    (requestScheme requestHost : String) :
    Except DomainErr WidgetConfigResponse :=
  match site with
  | none => Except.error DomainErr.notFound
  | some s =>
    let baseURL := cfgBaseURL
    let baseURL :=
      if requestHost ≠ "" then
        let scheme := if requestScheme = "" then "http" else requestScheme
        scheme ++ "://" ++ requestHost
      else baseURL
    Except.ok { siteID := s.id, name := s.name, config := s.widgetConfig,
                baseURL := baseURL }

/-- Scheme derivation of the widget `Handler.GetConfig` (widget/handler.go):
start from `http`, switch to `https` when the connection carries TLS state,
then let a non-empty `X-Forwarded-Proto` header override. -/
def requestSchemeOf (tls : Bool) (xForwardedProto : String) : String :=
  let scheme := "http"
  let scheme := if tls then "https" else scheme
  if xForwardedProto ≠ "" then xForwardedProto else scheme

/-- The widget config endpoint: `Handler.GetConfig` composed with
`WidgetService.GetWidgetConfig`, as a function of the inbound request's TLS
state, `X-Forwarded-Proto` header and `Host`. -/
def GetConfig (cfgBaseURL : String) (site : Option Site) (tls : Bool)
    (xForwardedProto host : String) : Except DomainErr WidgetConfigResponse :=
  GetWidgetConfig cfgBaseURL site (requestSchemeOf tls xForwardedProto) host

/-! ## Collection counter lifecycle (for the document_count invariant) -/

/-- One operation of a collection's document lifecycle, as reachable from the
code: an upload through `IngestService.UploadDocument`, a deletion through
`IngestService.DeleteDocument`, or a deletion through
`AdminService.DeleteDocument` (the path wired to the admin
`DELETE /api/admin/documents/:id` route). -/
inductive CollOp where
  | upload (filename docID : List Char)
  | deleteViaIngest (docID : List Char)
  | deleteViaAdmin (docID : List Char)
deriving DecidableEq, Repr

/-- Apply one lifecycle operation to the collection's state, using the
operation functions translated above (external-store calls assumed to
succeed; a panicking upload leaves the state unchanged, since the panic
happens before any write). -/
def applyOp (collectionID : List Char) (st : IngestState) : CollOp → IngestState
  | CollOp.upload filename docID =>
      match UploadDocument st true collectionID filename docID with
      | GoResult.ok (st', _) => st'
      | GoResult.panicked => st
  | CollOp.deleteViaIngest docID => (IngestDeleteDocument st collectionID docID true).1
  | CollOp.deleteViaAdmin docID => (AdminDeleteDocument st docID true).1

/-- Run a lifecycle trace against a freshly created collection. -/
def runOps (collectionID : List Char) (ops : List CollOp) : IngestState :=
  ops.foldl (applyOp collectionID) collectionCreate

/-- Whether an upload of this filename passes validation (collection existing):
the file type detection succeeds and the detected type is supported. -/
def uploadAccepted (filename : List Char) : Bool :=
  match DetectFileType filename with
  | GoResult.ok fileType => IsSupported fileType
  | GoResult.panicked => false

/-- Number of successful document uploads in a trace. -/
def countUploads (ops : List CollOp) : Nat :=
  ops.countP (fun op => match op with
    | CollOp.upload filename _ => uploadAccepted filename
    | _ => false)

/-- Number of deletions performed through `IngestService.DeleteDocument`. -/
def countIngestDeletes (ops : List CollOp) : Nat :=
  ops.countP (fun op => match op with
    | CollOp.deleteViaIngest _ => true
    | _ => false)

/-- Number of document deletions in a trace, through either deletion path. -/
def countDeletes (ops : List CollOp) : Nat :=
  ops.countP (fun op => match op with
    | CollOp.deleteViaIngest _ => true
    | CollOp.deleteViaAdmin _ => true
    | _ => false)

/-! ## Helper lemmas -/

/-- `extFromRev` yields the empty list or a list starting with a dot. -/
theorem extFromRev_nil_or_dot (l acc : List Char) :
    extFromRev l acc = [] ∨ ∃ r, extFromRev l acc = '.' :: r := by
  induction l generalizing acc with
  | nil => exact Or.inl rfl
  | cons c rest ih =>
    by_cases hs : c = '/'
    · exact Or.inl (by simp [extFromRev, hs])
    · by_cases hd : c = '.'
      · exact Or.inr ⟨acc, by simp [extFromRev, hs, hd]⟩
      · simpa [extFromRev, hs, hd] using ih (c :: acc)

/-- A non-empty `filepath.Ext` result starts with the dot. -/
theorem filepathExt_dot (path : List Char) (h : filepathExt path ≠ []) :
    ∃ r, filepathExt path = '.' :: r := by
  rcases extFromRev_nil_or_dot path.reverse [] with h0 | h0
  · exact absurd h0 h
  · exact h0

/-! ## C7: admin API key check -/

/-- C7 (counterexample): with configured key "k", a request carrying a wrong
`X-API-Key` header together with a correct `Authorization: Bearer k` header is
rejected 401, although the claim's condition "X-API-Key equals the key or
Authorization equals 'Bearer ' + key" holds — the middleware consults
`Authorization` only when `X-API-Key` is absent. -/
theorem auth_bearer_shadowed_counterexample :
    Auth "k".toList "wrong".toList "Bearer k".toList = AuthOutcome.unauthorized ∧
    "Bearer k".toList = bearerTag ++ "k".toList :=
  ⟨by decide, by decide⟩

/-- C7 (amended): with no key configured every request proceeds; with a
non-empty key configured, a request proceeds iff its `X-API-Key` header equals
the key, or its `X-API-Key` header is absent and its `Authorization` header
equals `"Bearer "` followed by the key; otherwise it is answered 401
unauthorized and aborted. -/
theorem auth_key_check (apiKey xKey authHdr : List Char) :
    (apiKey = [] → Auth apiKey xKey authHdr = AuthOutcome.proceed) ∧
    (apiKey ≠ [] →
      (Auth apiKey xKey authHdr = AuthOutcome.proceed ↔
        xKey = apiKey ∨ (xKey = [] ∧ authHdr = bearerTag ++ apiKey))) := by
  constructor
  · intro h
    simp [Auth, h]
  · intro hk
    by_cases hx : xKey = []
    · by_cases hb : authHdr.take 7 = bearerTag
      · by_cases hd : authHdr.drop 7 = apiKey
        · have hhdr : authHdr = bearerTag ++ apiKey := by
            conv_lhs => rw [← List.take_append_drop 7 authHdr]
            rw [hb, hd]
          have hv : Auth apiKey xKey authHdr = AuthOutcome.proceed := by
            simp [Auth, hk, hx, hb, hd]
          rw [hv]
          simp [hx, hhdr]
        · have hhdr : authHdr ≠ bearerTag ++ apiKey := by
            intro h
            apply hd
            rw [h]
            have h7 : bearerTag.length = 7 := by decide
            rw [← h7, List.drop_left]
          have hv : Auth apiKey xKey authHdr = AuthOutcome.unauthorized := by
            simp [Auth, hk, hx, hb, hd]
          rw [hv]
          constructor
          · intro h
            exact absurd h (by decide)
          · rintro (h | ⟨-, h⟩)
            · exact absurd (hx ▸ h) (fun hh => hk hh.symm)
            · exact absurd h hhdr
      · have hhdr : authHdr ≠ bearerTag ++ apiKey := by
          intro h
          apply hb
          rw [h]
          have h7 : bearerTag.length = 7 := by decide
          rw [← h7, List.take_left]
        have hne : ¬(([] : List Char) = apiKey) := fun h => hk h.symm
        have hv : Auth apiKey xKey authHdr = AuthOutcome.unauthorized := by
          simp [Auth, hk, hx, hb, hne]
        rw [hv]
        constructor
        · intro h
          exact absurd h (by decide)
        · rintro (h | ⟨-, h⟩)
          · exact absurd (hx ▸ h) hne
          · exact absurd h hhdr
    · by_cases hxa : xKey = apiKey
      · have hv : Auth apiKey xKey authHdr = AuthOutcome.proceed := by
          simp [Auth, hk, hx, hxa]
        rw [hv]
        simp [hxa]
      · have hv : Auth apiKey xKey authHdr = AuthOutcome.unauthorized := by
          simp [Auth, hk, hx, hxa]
        rw [hv]
        constructor
        · intro h
          exact absurd h (by decide)
        · rintro (h | ⟨h, -⟩)
          · exact absurd h hxa
          · exact absurd h hx

/-- C7 (witness): the amended characterization at the concrete key "k" with a
matching `X-API-Key` header. -/
theorem auth_key_check_witness :
    Auth "k".toList "k".toList [] = AuthOutcome.proceed :=
  ((auth_key_check "k".toList "k".toList []).2 (by decide)).mpr (Or.inl rfl)

/-! ## C10: DetectFileType totality -/

/-- C10: `DetectFileType` is not total: on a filename with no dot,
`filepath.Ext` returns the empty string and the default branch `ext[1:]`
panics with a slice-bounds error, so `UploadDocument` panics on such a file
instead of rejecting it with a validation error. -/
theorem detectFileType_extensionless_panics :
    DetectFileType "README".toList = GoResult.panicked ∧
    UploadDocument collectionCreate true "col1".toList "README".toList "doc1".toList
      = GoResult.panicked :=
  ⟨rfl, rfl⟩

/-! ## C4: unsupported extensions rejected before any I/O -/

/-- The eight whitelisted (lower-cased, dot-included) extensions of
`DetectFileType`/`IsSupported`. -/
def extWhitelist : List (List Char) :=
  [".pdf".toList, ".md".toList, ".markdown".toList, ".txt".toList,
   ".html".toList, ".htm".toList, ".adoc".toList, ".asciidoc".toList]

/-- C4 (counterexample): the filename "README" has extension "" — outside the
whitelist — yet `UploadDocument` does not return an unsupported-file-type
error for it: it panics in `DetectFileType`. -/
theorem upload_extensionless_counterexample :
    filepathExt "README".toList = [] ∧
    UploadDocument collectionCreate true "col1".toList "README".toList "doc2".toList
      = GoResult.panicked :=
  ⟨rfl, rfl⟩

/-- C4 (amended): for every upload to an existing collection whose filename
has a non-empty extension that, lower-cased, is outside the whitelist
{pdf, md, markdown, txt, html, htm, adoc, asciidoc}, `UploadDocument` returns
an unsupported-file-type error with the ingestion state unchanged: no
directory or file is written and the collection's `document_count` does not
change.  (An extension-less filename instead panics, see the counterexample.) -/
theorem upload_unsupported_rejected (st : IngestState) (cid f d : List Char)
    (hne : filepathExt f ≠ [])
    (hout : ((filepathExt f).map Char.toLower) ∉ extWhitelist) :
    ∃ ft, UploadDocument st true cid f d
        = GoResult.ok (st, Except.error (UploadErr.unsupportedFileType ft)) := by
  obtain ⟨r, hr⟩ := filepathExt_dot f hne
  have hdot : Char.toLower '.' = '.' := by decide
  have hlext : (filepathExt f).map Char.toLower = '.' :: r.map Char.toLower := by
    rw [hr, List.map_cons, hdot]
  simp only [extWhitelist, List.mem_cons, not_or] at hout
  obtain ⟨h1, h2, h3, h4, h5, h6, h7, h8, -⟩ := hout
  rw [hlext] at h1 h2 h3 h4 h5 h6 h7 h8
  have hdet : DetectFileType f = GoResult.ok (r.map Char.toLower) := by
    unfold DetectFileType
    rw [hlext, if_neg h1, if_neg (not_or.mpr ⟨h2, h3⟩), if_neg h4,
      if_neg (not_or.mpr ⟨h5, h6⟩), if_neg (not_or.mpr ⟨h7, h8⟩)]
  have hsup : IsSupported (r.map Char.toLower) = false := by
    unfold IsSupported
    simp only [decide_eq_false_iff_not, not_or]
    refine ⟨?_, ?_, ?_, ?_, ?_⟩ <;> intro hcl
    · exact h1 (by rw [hcl]; rfl)
    · exact h2 (by rw [hcl]; rfl)
    · exact h4 (by rw [hcl]; rfl)
    · exact h5 (by rw [hcl]; rfl)
    · exact h7 (by rw [hcl]; rfl)
  refine ⟨r.map Char.toLower, ?_⟩
  simp [UploadDocument, hdet, hsup]

/-- C4 (witness): the amended statement at the concrete filename "virus.exe"
against a fresh collection. -/
theorem upload_unsupported_rejected_witness :
    ∃ ft, UploadDocument collectionCreate true "col1".toList "virus.exe".toList
        "doc3".toList
      = GoResult.ok (collectionCreate,
          Except.error (UploadErr.unsupportedFileType ft)) :=
  upload_unsupported_rejected collectionCreate "col1".toList "virus.exe".toList
    "doc3".toList (by decide) (by decide)

/-! ## C3: document_count lifecycle -/

/-- An accepted upload increments `document_count` by one; a rejected or
panicking upload leaves it unchanged. -/
theorem applyOp_upload_docCount (cid : List Char) (st : IngestState)
    (f d : List Char) :
    (applyOp cid st (CollOp.upload f d)).docCount
      = st.docCount + (if uploadAccepted f then 1 else 0) := by
  unfold applyOp uploadAccepted
  cases hdt : DetectFileType f with
  | panicked => simp [UploadDocument, hdt]
  | ok ft =>
    by_cases hs : IsSupported ft = true
    · simp [UploadDocument, hdt, hs]
    · simp [UploadDocument, hdt, Bool.eq_false_iff.mpr hs]

/-- Fold form of the counter invariant, generalized over the initial state. -/
theorem foldl_applyOp_docCount (cid : List Char) (ops : List CollOp) :
    ∀ st : IngestState,
      (ops.foldl (applyOp cid) st).docCount
        = st.docCount + (countUploads ops : Int) - (countIngestDeletes ops : Int) := by
  induction ops with
  | nil =>
    intro st
    simp [countUploads, countIngestDeletes]
  | cons op rest ih =>
    intro st
    rw [List.foldl_cons, ih]
    cases op with
    | upload f d =>
      rw [applyOp_upload_docCount]
      by_cases h : uploadAccepted f = true
      · simp [countUploads, countIngestDeletes, List.countP_cons, h]
        omega
      · simp [countUploads, countIngestDeletes, List.countP_cons, h]
    | deleteViaIngest d =>
      simp [applyOp, IngestDeleteDocument, countUploads,
        countIngestDeletes, List.countP_cons]
      omega
    | deleteViaAdmin d =>
      simp [applyOp, AdminDeleteDocument, countUploads,
        countIngestDeletes, List.countP_cons]

/-- C3 (counterexample): the trace "create collection, upload a.txt, delete
the document through the admin API route" ends with `document_count = 1`,
although it contains one successful upload and one deletion — the claim's
value uploads − deletes = 0.  `AdminService.DeleteDocument`, the function
wired to `DELETE /api/admin/documents/:id`, never decrements the counter. -/
theorem document_count_admin_delete_counterexample :
    (runOps "col1".toList
        [CollOp.upload "a.txt".toList "doc1".toList,
         CollOp.deleteViaAdmin "doc1".toList]).docCount = 1 ∧
    countUploads
        [CollOp.upload "a.txt".toList "doc1".toList,
         CollOp.deleteViaAdmin "doc1".toList] = 1 ∧
    countDeletes
        [CollOp.upload "a.txt".toList "doc1".toList,
         CollOp.deleteViaAdmin "doc1".toList] = 1 ∧
    (1 : Int) ≠ 1 - 1 :=
  ⟨by decide, by decide, by decide, by decide⟩

/-- C3 (amended): `document_count` is 0 at collection creation and, after any
sequence of uploads and deletions, equals the number of successful uploads
minus the number of deletions performed through `IngestService.DeleteDocument`
— deletions performed through `AdminService.DeleteDocument` (the admin API
route) do not decrement it. -/
theorem document_count_invariant (cid : List Char) (ops : List CollOp) :
    (runOps cid []).docCount = 0 ∧
    (runOps cid ops).docCount
      = (countUploads ops : Int) - (countIngestDeletes ops : Int) := by
  constructor
  · rfl
  · have h := foldl_applyOp_docCount cid ops collectionCreate
    simpa [runOps, collectionCreate] using h

/-! ## C8: client-side pagination of document listing -/

/-- The pagination of `AdminService.ListDocuments` never panics for
`page ≥ 1` and `pageSize ≥ 0`, and produces exactly the in-memory slice
`docs[(page-1)*pageSize : (page-1)*pageSize + pageSize]` (truncated at the
list's end) together with the full list length. -/
theorem paginate_spec (docs : List RagoDoc) (page pageSize : Int)
    (hp : 1 ≤ page) (hs : 0 ≤ pageSize) :
    paginate docs page pageSize
      = GoResult.ok
          ((docs.drop ((page - 1) * pageSize).toNat).take pageSize.toNat,
           (docs.length : Int)) := by
  have h0 : 0 ≤ (page - 1) * pageSize := mul_nonneg (by omega) hs
  simp only [paginate]
  rw [if_neg (not_lt.mpr h0)]
  by_cases hlt : (page - 1) * pageSize < (docs.length : Int)
  · rw [if_pos hlt]
    by_cases hstop : (page - 1) * pageSize + pageSize > (docs.length : Int)
    · rw [if_pos hstop, if_neg (by omega)]
      congr 1
      congr 1
      have hlen : (docs.drop ((page - 1) * pageSize).toNat).length
          = docs.length - ((page - 1) * pageSize).toNat := List.length_drop _ _
      have hk : ((docs.length : Int) - (page - 1) * pageSize).toNat
          = (docs.drop ((page - 1) * pageSize).toNat).length := by
        rw [hlen]; omega
      rw [hk, List.take_length, List.take_of_length_le (by rw [hlen]; omega)]
    · rw [if_neg hstop, if_neg (by omega)]
      congr 3
      omega
  · rw [if_neg hlt]
    have hdrop : docs.drop ((page - 1) * pageSize).toNat = [] :=
      List.drop_eq_nil_of_le (by omega)
    rw [hdrop, List.take_nil]

/-- C8: listing documents fetches the full filtered list and slices it in
memory: for `page ≥ 1` and `pageSize ≥ 0` the response holds the sub-list
from index `(page-1)*pageSize` of length at most `pageSize` (empty when the
start index is at or past the end), and its `Total` field is the length of
the full filtered list, not the page length. -/
theorem listDocuments_pagination (allDocs : List RagoDoc) (cid : String)
    (page pageSize : Int) (hp : 1 ≤ page) (hs : 0 ≤ pageSize) :
    ∃ resp, ListDocuments allDocs cid page pageSize = GoResult.ok resp ∧
      resp.documents
        = ((ListDocumentsByCollection allDocs cid).drop
            ((page - 1) * pageSize).toNat).take pageSize.toNat ∧
      resp.total = ((ListDocumentsByCollection allDocs cid).length : Int) ∧
      (((ListDocumentsByCollection allDocs cid).length : Int)
          ≤ (page - 1) * pageSize → resp.documents = []) := by
  have hList : ListDocuments allDocs cid page pageSize
      = GoResult.ok
          { documents := ((ListDocumentsByCollection allDocs cid).drop
              ((page - 1) * pageSize).toNat).take pageSize.toNat,
            total := ((ListDocumentsByCollection allDocs cid).length : Int),
            page := page, pageSize := pageSize } := by
    unfold ListDocuments
    rw [paginate_spec _ _ _ hp hs]
  refine ⟨_, hList, rfl, rfl, ?_⟩
  intro hfull
  have hdrop : (ListDocumentsByCollection allDocs cid).drop
      ((page - 1) * pageSize).toNat = [] :=
    List.drop_eq_nil_of_le (by omega)
  simp [hdrop]

/-- Concrete store contents for the pagination witness: three documents in
collection "c" and one in another collection. -/
def sampleDocs : List RagoDoc :=
  [{ id := "d1", collectionID := some "c" },
   { id := "d2", collectionID := some "c" },
   { id := "d3", collectionID := some "other" },
   { id := "d4", collectionID := some "c" }]

/-- C8 (witness): page 2 of size 2 over a store holding three documents of the
collection returns the third document alone, with `Total` = 3. -/
theorem listDocuments_pagination_witness :
    ∃ resp, ListDocuments sampleDocs "c" 2 2 = GoResult.ok resp ∧
      resp.documents
        = ((ListDocumentsByCollection sampleDocs "c").drop 2).take 2 ∧
      resp.total = 3 := by
  obtain ⟨resp, h1, h2, h3, -⟩ :=
    listDocuments_pagination sampleDocs "c" 2 2 (by decide) (by decide)
  refine ⟨resp, h1, ?_, ?_⟩
  · simpa using h2
  · rw [h3]; decide

/-! ## C1 / C5: message persistence of chat turns -/

/-- A concrete site used by the closed counterexample/witness theorems. -/
def sampleSite : Site :=
  { id := "site1", name := "Docs", domain := "docs.example",
    collectionIDs := ["col1"],
    widgetConfig :=
      { theme := "light", primaryColor := "#3b82f6", position := "bottom-right",
        welcomeMessage := "Hi! How can I help you?",
        placeholder := "Ask a question...", showSources := true },
    rateLimit := 100 }

/-- C1 (counterexample): a streaming chat turn against an existing site
completes successfully (its chunk stream is returned) yet persists zero
Message rows — not one user and one assistant row as claimed: the streaming
path of `ChatService.ChatStream` never writes to the sessions or messages
tables. -/
theorem chat_stream_persists_nothing_counterexample :
    (ChatStream { sessions := [], messages := [] } "site1" (some sampleSite)
        { sessionID := "", message := "hello" } true
        [StreamChunk.content "hi", StreamChunk.done]).1.messages = [] ∧
    (ChatStream { sessions := [], messages := [] } "site1" (some sampleSite)
        { sessionID := "", message := "hello" } true
        [StreamChunk.content "hi", StreamChunk.done]).2
      = Except.ok [StreamChunk.content "hi", StreamChunk.done] :=
  ⟨rfl, rfl⟩

/-- C1 (amended): a non-streaming chat turn against an existing site appends
exactly one user Message followed by exactly one assistant Message for the
turn's session, whatever the orchestrator outcome (success, failure, or not
configured); a streaming chat turn persists no Message rows at all — the
database state is returned unchanged. -/
theorem chat_turn_persistence (db : ChatDB) (siteID : String) (s : Site)
    (req : ChatRequest) (newSessionID : String) (orch : OrchOutcome)
    (orchConfigured : Bool) (orchChunks : List StreamChunk) :
    (∃ sid answer srcs,
      (Chat db siteID (some s) req newSessionID orch).1.messages
        = db.messages ++
          [{ sessionID := sid, role := "user", content := req.message,
             sources := [] },
           { sessionID := sid, role := "assistant", content := answer,
             sources := srcs }]) ∧
    (ChatStream db siteID (some s) req orchConfigured orchChunks).1 = db := by
  constructor
  · cases orch with
    | notConfigured =>
      by_cases h : req.sessionID = ""
      · exact ⟨newSessionID,
          "Orchestrator Agent not configured. Your question: " ++ req.message,
          [], by simp [Chat, h]⟩
      · exact ⟨req.sessionID,
          "Orchestrator Agent not configured. Your question: " ++ req.message,
          [], by simp [Chat, h]⟩
    | success answer srcs =>
      by_cases h : req.sessionID = ""
      · exact ⟨newSessionID, answer, srcs, by simp [Chat, h]⟩
      · exact ⟨req.sessionID, answer, srcs, by simp [Chat, h]⟩
    | failure e =>
      by_cases h : req.sessionID = ""
      · exact ⟨newSessionID, "Error from Agent: " ++ e, [], by simp [Chat, h]⟩
      · exact ⟨req.sessionID, "Error from Agent: " ++ e, [], by simp [Chat, h]⟩
  · cases orchConfigured <;> simp [ChatStream]

/-- C5: in the non-streaming chat path, a failing orchestrator call is not
propagated: the turn still returns `Except.ok` with a synthetic answer
`"Error from Agent: " ++ errText`, and that synthetic answer is persisted as
the turn's assistant Message (right after the user Message). -/
theorem chat_failure_synthesizes_answer (db : ChatDB) (siteID : String)
    (s : Site) (req : ChatRequest) (newSessionID : String) (e : String) :
    ∃ sid,
      (Chat db siteID (some s) req newSessionID (OrchOutcome.failure e)).2
        = Except.ok
            { sessionID := sid, answer := "Error from Agent: " ++ e,
              sources := [] } ∧
      (Chat db siteID (some s) req newSessionID (OrchOutcome.failure e)).1.messages
        = db.messages ++
          [{ sessionID := sid, role := "user", content := req.message,
             sources := [] },
           { sessionID := sid, role := "assistant",
             content := "Error from Agent: " ++ e, sources := [] }] := by
  by_cases h : req.sessionID = ""
  · exact ⟨newSessionID, by simp [Chat, h], by simp [Chat, h]⟩
  · exact ⟨req.sessionID, by simp [Chat, h], by simp [Chat, h]⟩

/-! ## C6 / C9: widget config base URL -/

/-- C6: for an existing site, the widget-config response's `base_url` is
`scheme://host` built from the inbound request: `scheme` is the
`X-Forwarded-Proto` header value when non-empty, else `https` on a TLS
connection, else `http`; the statically configured base URL is used only
when the request `Host` is empty. -/
theorem widget_config_base_url (cfgBaseURL : String) (s : Site) (tls : Bool)
    (xfp host : String) :
    (host ≠ "" →
      GetConfig cfgBaseURL (some s) tls xfp host
        = Except.ok
            { siteID := s.id, name := s.name, config := s.widgetConfig,
              baseURL := (if xfp ≠ "" then xfp
                else if tls then "https" else "http") ++ "://" ++ host }) ∧
    (host = "" →
      GetConfig cfgBaseURL (some s) tls xfp host
        = Except.ok
            { siteID := s.id, name := s.name, config := s.widgetConfig,
              baseURL := cfgBaseURL }) := by
  constructor
  · intro h
    by_cases hx : xfp = ""
    · cases tls <;>
        simp [GetConfig, GetWidgetConfig, requestSchemeOf, h, hx]
    · simp [GetConfig, GetWidgetConfig, requestSchemeOf, h, hx]
  · intro h
    simp [GetConfig, GetWidgetConfig, requestSchemeOf, h]

/-- C6 (witness): a plain-HTTP request with Host `lan.example:9000` and no
forwarded-proto header gets `base_url = "http://lan.example:9000"`, not the
configured base URL. -/
theorem widget_config_base_url_witness :
    GetConfig "http://localhost:8080" (some sampleSite) false "" "lan.example:9000"
      = Except.ok
          { siteID := sampleSite.id, name := sampleSite.name,
            config := sampleSite.widgetConfig,
            baseURL := "http://lan.example:9000" } := by
  have h := (widget_config_base_url "http://localhost:8080" sampleSite false ""
    "lan.example:9000").1 (by decide)
  rw [h]
  congr 1

/-- C9: two widget-config calls for the same existing site with no intervening
update return the same `site_id`, `name` and widget display config; only
`base_url` can differ, and only when the two requests carry a different
derived scheme or a different Host. -/
theorem widget_config_idempotent (cfgBaseURL : String) (s : Site)
    (tls₁ tls₂ : Bool) (xfp₁ xfp₂ host₁ host₂ : String) :
    ∃ r₁ r₂,
      GetConfig cfgBaseURL (some s) tls₁ xfp₁ host₁ = Except.ok r₁ ∧
      GetConfig cfgBaseURL (some s) tls₂ xfp₂ host₂ = Except.ok r₂ ∧
      r₁.siteID = r₂.siteID ∧ r₁.name = r₂.name ∧ r₁.config = r₂.config ∧
      (r₁.baseURL ≠ r₂.baseURL →
        requestSchemeOf tls₁ xfp₁ ≠ requestSchemeOf tls₂ xfp₂ ∨
          host₁ ≠ host₂) := by
  refine ⟨_, _, rfl, rfl, rfl, rfl, rfl, ?_⟩
  intro hne
  rcases eq_or_ne (requestSchemeOf tls₁ xfp₁) (requestSchemeOf tls₂ xfp₂)
    with hs | hs
  · rcases eq_or_ne host₁ host₂ with hh | hh
    · exact absurd (by simp [GetConfig, GetWidgetConfig, hs, hh]) hne
    · exact Or.inr hh
  · exact Or.inl hs

/-- C9 (witness): two identical requests for the sample site return the same
config payload. -/
theorem widget_config_idempotent_witness :
    ∃ r₁ r₂,
      GetConfig "b" (some sampleSite) false "" "h.example" = Except.ok r₁ ∧
      GetConfig "b" (some sampleSite) false "" "h.example" = Except.ok r₂ ∧
      r₁.config = r₂.config := by
  obtain ⟨r₁, r₂, h₁, h₂, -, -, hc, -⟩ :=
    widget_config_idempotent "b" sampleSite false false "" "" "h.example" "h.example"
  exact ⟨r₁, r₂, h₁, h₂, hc⟩

/-! ## C2: stream termination -/

/-- Prepending a non-`done` chunk does not change the `done` count. -/
theorem countP_cons_not_done (ch : StreamChunk) (l : List StreamChunk)
    (h : isDoneChunk ch = false) :
    (ch :: l).countP isDoneChunk = l.countP isDoneChunk := by
  simp [List.countP_cons, h]

/-- A list of `content` chunks contains no `done` chunk. -/
theorem countP_done_map_content (ps : List String) :
    (ps.map StreamChunk.content).countP isDoneChunk = 0 := by
  induction ps with
  | nil => rfl
  | cons p rest ih => simp [List.countP_cons, isDoneChunk, ih]

/-- A list of `content` chunks contains no `done` chunk (composition form,
as left by `List.countP_map`). -/
theorem countP_done_comp_content (ps : List String) :
    ps.countP (isDoneChunk ∘ StreamChunk.content) = 0 := by
  induction ps with
  | nil => rfl
  | cons p rest ih => simp [List.countP_cons, isDoneChunk, Function.comp, ih]

/-- Behaviour of the agent-variant relay on every upstream event sequence:
at most one `done` chunk, the output ends in a terminal chunk (`done` or
`error`), and when the upstream emits no error event the output ends in
exactly one `done` — even when the upstream never emits a `done` event. -/
theorem chatStreamAgent_spec (events : List AgentEvent) :
    (ChatStreamAgent events).countP isDoneChunk ≤ 1 ∧
    (∃ l c, ChatStreamAgent events = l ++ [c] ∧ isTerminalChunk c = true) ∧
    ((∀ e ∈ events, isErrorEvent e = false) →
      (ChatStreamAgent events).countP isDoneChunk = 1 ∧
      ∃ l, ChatStreamAgent events = l ++ [StreamChunk.done]) := by
  induction events with
  | nil =>
    exact ⟨by simp [ChatStreamAgent, List.countP_cons, isDoneChunk],
      ⟨[], StreamChunk.done, rfl, rfl⟩,
      fun _ => ⟨by simp [ChatStreamAgent, List.countP_cons, isDoneChunk], [], rfl⟩⟩
  | cons e rest ih =>
    obtain ⟨ihc, ⟨l, c, hl, hc⟩, ihne⟩ := ih
    cases e with
    | thinking s =>
      refine ⟨?_, ⟨StreamChunk.thinking s :: l, c, ?_, hc⟩, ?_⟩
      · rw [show ChatStreamAgent (AgentEvent.thinking s :: rest)
            = StreamChunk.thinking s :: ChatStreamAgent rest from rfl,
          countP_cons_not_done (StreamChunk.thinking s) _ rfl]
        exact ihc
      · rw [show ChatStreamAgent (AgentEvent.thinking s :: rest)
            = StreamChunk.thinking s :: ChatStreamAgent rest from rfl, hl]
        rfl
      · intro hne
        obtain ⟨hcnt, l', hl'⟩ := ihne (fun e' he' => hne e' (List.mem_cons_of_mem _ he'))
        refine ⟨?_, StreamChunk.thinking s :: l', ?_⟩
        · rw [show ChatStreamAgent (AgentEvent.thinking s :: rest)
              = StreamChunk.thinking s :: ChatStreamAgent rest from rfl,
            countP_cons_not_done (StreamChunk.thinking s) _ rfl]
          exact hcnt
        · rw [show ChatStreamAgent (AgentEvent.thinking s :: rest)
              = StreamChunk.thinking s :: ChatStreamAgent rest from rfl, hl']
          rfl
    | text s =>
      refine ⟨?_, ⟨StreamChunk.content s :: l, c, ?_, hc⟩, ?_⟩
      · rw [show ChatStreamAgent (AgentEvent.text s :: rest)
            = StreamChunk.content s :: ChatStreamAgent rest from rfl,
          countP_cons_not_done (StreamChunk.content s) _ rfl]
        exact ihc
      · rw [show ChatStreamAgent (AgentEvent.text s :: rest)
            = StreamChunk.content s :: ChatStreamAgent rest from rfl, hl]
        rfl
      · intro hne
        obtain ⟨hcnt, l', hl'⟩ := ihne (fun e' he' => hne e' (List.mem_cons_of_mem _ he'))
        refine ⟨?_, StreamChunk.content s :: l', ?_⟩
        · rw [show ChatStreamAgent (AgentEvent.text s :: rest)
              = StreamChunk.content s :: ChatStreamAgent rest from rfl,
            countP_cons_not_done (StreamChunk.content s) _ rfl]
          exact hcnt
        · rw [show ChatStreamAgent (AgentEvent.text s :: rest)
              = StreamChunk.content s :: ChatStreamAgent rest from rfl, hl']
          rfl
    | toolCall n =>
      refine ⟨?_, ⟨StreamChunk.thinking ("Using tool: " ++ n) :: l, c, ?_, hc⟩, ?_⟩
      · rw [show ChatStreamAgent (AgentEvent.toolCall n :: rest)
            = StreamChunk.thinking ("Using tool: " ++ n) :: ChatStreamAgent rest from rfl,
          countP_cons_not_done (StreamChunk.thinking ("Using tool: " ++ n)) _ rfl]
        exact ihc
      · rw [show ChatStreamAgent (AgentEvent.toolCall n :: rest)
            = StreamChunk.thinking ("Using tool: " ++ n) :: ChatStreamAgent rest from rfl,
          hl]
        rfl
      · intro hne
        obtain ⟨hcnt, l', hl'⟩ := ihne (fun e' he' => hne e' (List.mem_cons_of_mem _ he'))
        refine ⟨?_, StreamChunk.thinking ("Using tool: " ++ n) :: l', ?_⟩
        · rw [show ChatStreamAgent (AgentEvent.toolCall n :: rest)
              = StreamChunk.thinking ("Using tool: " ++ n) :: ChatStreamAgent rest from rfl,
            countP_cons_not_done (StreamChunk.thinking ("Using tool: " ++ n)) _ rfl]
          exact hcnt
        · rw [show ChatStreamAgent (AgentEvent.toolCall n :: rest)
              = StreamChunk.thinking ("Using tool: " ++ n) :: ChatStreamAgent rest from rfl,
            hl']
          rfl
    | toolResult n =>
      refine ⟨?_, ⟨StreamChunk.thinking ("Tool " ++ n ++ " completed") :: l, c, ?_, hc⟩, ?_⟩
      · rw [show ChatStreamAgent (AgentEvent.toolResult n :: rest)
            = StreamChunk.thinking ("Tool " ++ n ++ " completed") :: ChatStreamAgent rest
            from rfl,
          countP_cons_not_done (StreamChunk.thinking ("Tool " ++ n ++ " completed")) _ rfl]
        exact ihc
      · rw [show ChatStreamAgent (AgentEvent.toolResult n :: rest)
            = StreamChunk.thinking ("Tool " ++ n ++ " completed") :: ChatStreamAgent rest
            from rfl,
          hl]
        rfl
      · intro hne
        obtain ⟨hcnt, l', hl'⟩ := ihne (fun e' he' => hne e' (List.mem_cons_of_mem _ he'))
        refine ⟨?_, StreamChunk.thinking ("Tool " ++ n ++ " completed") :: l', ?_⟩
        · rw [show ChatStreamAgent (AgentEvent.toolResult n :: rest)
              = StreamChunk.thinking ("Tool " ++ n ++ " completed") :: ChatStreamAgent rest
              from rfl,
            countP_cons_not_done (StreamChunk.thinking ("Tool " ++ n ++ " completed")) _ rfl]
          exact hcnt
        · rw [show ChatStreamAgent (AgentEvent.toolResult n :: rest)
              = StreamChunk.thinking ("Tool " ++ n ++ " completed") :: ChatStreamAgent rest
              from rfl,
            hl']
          rfl
    | done =>
      exact ⟨by simp [ChatStreamAgent, List.countP_cons, isDoneChunk],
        ⟨[], StreamChunk.done, rfl, rfl⟩,
        fun _ => ⟨by simp [ChatStreamAgent, List.countP_cons, isDoneChunk], [], rfl⟩⟩
    | error s =>
      refine ⟨by simp [ChatStreamAgent, List.countP_cons, isDoneChunk],
        ⟨[], StreamChunk.error s, rfl, rfl⟩, ?_⟩
      intro hne
      have := hne (AgentEvent.error s) (List.mem_cons_self _ _)
      simp [isErrorEvent] at this
    | other =>
      refine ⟨?_, ⟨l, c, ?_, hc⟩, ?_⟩
      · rw [show ChatStreamAgent (AgentEvent.other :: rest)
            = ChatStreamAgent rest from rfl]
        exact ihc
      · rw [show ChatStreamAgent (AgentEvent.other :: rest)
            = ChatStreamAgent rest from rfl]
        exact hl
      · intro hne
        obtain ⟨hcnt, l', hl'⟩ := ihne (fun e' he' => hne e' (List.mem_cons_of_mem _ he'))
        exact ⟨by rw [show ChatStreamAgent (AgentEvent.other :: rest)
            = ChatStreamAgent rest from rfl]; exact hcnt,
          l', by rw [show ChatStreamAgent (AgentEvent.other :: rest)
            = ChatStreamAgent rest from rfl]; exact hl'⟩

/-- Behaviour of the simple-RAG relay: at most one `done` chunk, the output
ends in a terminal chunk, and with every external call succeeding the output
ends in exactly one `done`. -/
theorem chatStreamSimple_spec (em : Except String Unit)
    (se : Except String (List RagHit)) (ps : List String) (ge : Option String) :
    (ChatStreamSimple em se ps ge).countP isDoneChunk ≤ 1 ∧
    (∃ l c, ChatStreamSimple em se ps ge = l ++ [c] ∧ isTerminalChunk c = true) ∧
    (em = Except.ok () → (∃ hits, se = Except.ok hits) → ge = none →
      (ChatStreamSimple em se ps ge).countP isDoneChunk = 1 ∧
      ∃ l, ChatStreamSimple em se ps ge = l ++ [StreamChunk.done]) := by
  cases em with
  | error e =>
    refine ⟨by simp [ChatStreamSimple, List.countP_cons, isDoneChunk],
      ⟨[StreamChunk.thinking "Searching..."], StreamChunk.error e, rfl, rfl⟩, ?_⟩
    intro h
    exact absurd h (by simp)
  | ok u =>
    cases u
    cases se with
    | error e =>
      refine ⟨by simp [ChatStreamSimple, List.countP_cons, isDoneChunk],
        ⟨[StreamChunk.thinking "Searching..."], StreamChunk.error e, rfl, rfl⟩, ?_⟩
      intro _ h
      obtain ⟨hits, hh⟩ := h
      exact absurd hh (by simp)
    | ok hits =>
      by_cases hempty : hits.isEmpty
      · refine ⟨by simp [ChatStreamSimple, hempty, List.countP_cons, isDoneChunk],
          ⟨[StreamChunk.thinking "Searching...",
            StreamChunk.content "No relevant documents found."],
           StreamChunk.done, by simp [ChatStreamSimple, hempty], rfl⟩, ?_⟩
        intro _ _ _
        exact ⟨by simp [ChatStreamSimple, hempty, List.countP_cons, isDoneChunk],
          [StreamChunk.thinking "Searching...",
           StreamChunk.content "No relevant documents found."],
          by simp [ChatStreamSimple, hempty]⟩
      · cases ge with
        | some e =>
          refine ⟨?_,
            ⟨StreamChunk.thinking "Searching..." ::
               StreamChunk.thinking "Generating..." :: ps.map StreamChunk.content,
             StreamChunk.error e, by simp [ChatStreamSimple, hempty], rfl⟩, ?_⟩
          · simp [ChatStreamSimple, hempty, List.countP_cons, List.countP_append,
              countP_done_map_content, countP_done_comp_content, isDoneChunk]
          · intro _ _ h
            exact absurd h (by simp)
        | none =>
          have hcnt : (ChatStreamSimple (Except.ok ()) (Except.ok hits) ps none).countP
              isDoneChunk = 1 := by
            simp [ChatStreamSimple, hempty, List.countP_cons, List.countP_append,
              countP_done_map_content, countP_done_comp_content, isDoneChunk]
          have hsh : ChatStreamSimple (Except.ok ()) (Except.ok hits) ps none
              = (StreamChunk.thinking "Searching..." ::
                  StreamChunk.thinking "Generating..." ::
                  (ps.map StreamChunk.content ++
                    [StreamChunk.sources (hitsToSources hits)]))
                ++ [StreamChunk.done] := by
            simp [ChatStreamSimple, hempty]
          exact ⟨le_of_eq hcnt, ⟨_, StreamChunk.done, hsh, rfl⟩,
            fun _ _ _ => ⟨hcnt, _, hsh⟩⟩

/-- C2 (counterexample): when the upstream fails, neither relay ends in a
`done` chunk — the agent relay answers an upstream error event with a single
`error` chunk and stops, and the simple relay does the same after a failed
embedding call. -/
theorem chatStream_error_no_done_counterexample :
    ChatStreamAgent [AgentEvent.error "agent stream failed"]
      = [StreamChunk.error "agent stream failed"] ∧
    (ChatStreamAgent [AgentEvent.error "agent stream failed"]).countP isDoneChunk
      = 0 ∧
    ChatStreamSimple (Except.error "embedding failed") (Except.ok []) [] none
      = [StreamChunk.thinking "Searching...", StreamChunk.error "embedding failed"] :=
  ⟨rfl, rfl, rfl⟩

/-- C2 (amended): every streaming chat turn's chunk sequence (for either
orchestrator variant) is finite and ends in a single terminal chunk: `done`
contains at most one occurrence overall; when the upstream emits no error
(all external calls succeed), the sequence ends in exactly one `done` chunk,
synthesized by the relay even if the upstream ends without one; when the
upstream fails, the sequence instead ends in an `error` chunk and contains
no `done`. -/
theorem chatStream_terminal :
    (∀ events : List AgentEvent,
      (ChatStreamAgent events).countP isDoneChunk ≤ 1 ∧
      (∃ l c, ChatStreamAgent events = l ++ [c] ∧ isTerminalChunk c = true) ∧
      ((∀ e ∈ events, isErrorEvent e = false) →
        (ChatStreamAgent events).countP isDoneChunk = 1 ∧
        ∃ l, ChatStreamAgent events = l ++ [StreamChunk.done])) ∧
    (∀ (em : Except String Unit) (se : Except String (List RagHit))
        (ps : List String) (ge : Option String),
      (ChatStreamSimple em se ps ge).countP isDoneChunk ≤ 1 ∧
      (∃ l c, ChatStreamSimple em se ps ge = l ++ [c] ∧ isTerminalChunk c = true) ∧
      (em = Except.ok () → (∃ hits, se = Except.ok hits) → ge = none →
        (ChatStreamSimple em se ps ge).countP isDoneChunk = 1 ∧
        ∃ l, ChatStreamSimple em se ps ge = l ++ [StreamChunk.done])) :=
  ⟨chatStreamAgent_spec, chatStreamSimple_spec⟩

/-- C2 (witness): concrete runs of both relays whose upstream ends without a
`done`, for which the relay output still ends in exactly one `done`. -/
theorem chatStream_terminal_witness :
    (ChatStreamAgent [AgentEvent.text "hi"]).countP isDoneChunk = 1 ∧
    (ChatStreamSimple (Except.ok ()) (Except.ok []) [] none).countP isDoneChunk
      = 1 := by
  constructor
  · exact ((chatStream_terminal.1 [AgentEvent.text "hi"]).2.2
      (by intro e he; simp at he; subst he; rfl)).1
  · exact ((chatStream_terminal.2 (Except.ok ()) (Except.ok []) [] none).2.2
      rfl ⟨[], rfl⟩ rfl).1

end Askdoc
